import Mathlib

/-!
Shallow embedding of the ProctorIQ frontend client
(src/frontend/src/services/api.ts and src/frontend/src/pages/UploadPage.tsx)
together with theorems settling the specification claims about it.

TypeScript numbers are modelled as rationals, fallible network calls as
Except values supplied by an oracle, and the React component state of the
upload page as an explicit record threaded through a pure rendering of
handleSubmit.
-/

namespace ProctorIQ

/-! ## HTTP request model of the ApiService (api.ts, lines 139-236)

Each ApiService method issues one axios request. We embed, for each method,
the request descriptor it builds: HTTP verb, path, and the per-request
config when the source passes one. The axios instance `this.api` is created
once with `timeout: 120000`; axios resolves the effective timeout of a
request as the per-request timeout when present, otherwise the instance
timeout. -/

inductive HttpMethod
  | get
  | post
deriving DecidableEq

/-- Per-request axios config as used in api.ts: the source only ever sets a
Content-Type header and never a per-request timeout. -/
structure RequestConfig where
  timeout : Option Nat := none
  contentTypeHeader : Option String := none
deriving DecidableEq

structure RequestSpec where
  method : HttpMethod
  path : String
  config : Option RequestConfig
deriving DecidableEq

/-- The timeout of the shared axios instance, api.ts line 142:
`timeout: 120000`. -/
def apiInstanceTimeoutMs : Nat := 120000

/-- Request issued by `uploadAnswerSheet` (api.ts line 169): POST with a
multipart Content-Type override and no timeout override. -/
def uploadAnswerSheetRequest : RequestSpec :=
  { method := .post
    path := "/upload/answer-sheet"
    config := some { contentTypeHeader := some "multipart/form-data" } }

/-- Request issued by `processAnswerSheet` (api.ts line 180). -/
def processAnswerSheetRequest (uploadId : String) : RequestSpec :=
  { method := .post
    path := "/process/answer-sheet/" ++ uploadId
    config := none }

/-- Request issued by `getEvaluationResults` (api.ts line 186). -/
def getEvaluationResultsRequest (uploadId : String) : RequestSpec :=
  { method := .get
    path := "/results/" ++ uploadId
    config := none }

/-- Request issued by `listUploads` (api.ts line 192). -/
def listUploadsRequest : RequestSpec :=
  { method := .get
    path := "/uploads"
    config := none }

/-- Request issued by `uploadMultipleAnswerSheets` (api.ts line 216). -/
def uploadMultipleAnswerSheetsRequest : RequestSpec :=
  { method := .post
    path := "/upload/multiple-answer-sheets"
    config := some { contentTypeHeader := some "multipart/form-data" } }

/-- Request issued by `processBatchAnswerSheets` (api.ts line 227). -/
def processBatchAnswerSheetsRequest (batchId : String) : RequestSpec :=
  { method := .post
    path := "/process/batch/" ++ batchId
    config := none }

/-- Request issued by `getBatchEvaluationResults` (api.ts line 233). -/
def getBatchEvaluationResultsRequest (batchId : String) : RequestSpec :=
  { method := .get
    path := "/batch/results/" ++ batchId
    config := none }

/-- Axios timeout resolution for requests issued through `this.api`: the
per-request timeout when one is configured, otherwise the instance timeout. -/
def effectiveTimeoutMs (r : RequestSpec) : Nat :=
  match r.config with
  | some c => c.timeout.getD apiInstanceTimeoutMs
  | none => apiInstanceTimeoutMs

/-- A request mutates remote state exactly when it is a POST; GET requests
are reads (HTTP method semantics, matching the spec read/write split). -/
def isStateChanging (r : RequestSpec) : Bool :=
  match r.method with
  | .post => true
  | .get => false

/-! ## Response payload types (api.ts, lines 5-137)

TypeScript `number` is modelled as a rational; `any` payloads, which the
spec treats as opaque blobs passed through uninterpreted, are modelled as
strings. -/

/-- The `evaluation` object of ProcessingResponse and of each batch member
(api.ts lines 36-41 and 96-101). -/
structure Evaluation where
  total_marks : ℚ
  possible_marks : ℚ
  percentage : ℚ
  overall_feedback : String
deriving DecidableEq

/-- The status field of a batch member result: the TypeScript union
literal type success-or-error (api.ts line 95). -/
inductive MemberStatus
  | success
  | error
deriving DecidableEq

/-- One element of the `results` array of BatchProcessingResponse and
BatchResults (api.ts lines 92-103 and 125-136). -/
structure BatchMemberResult where
  upload_id : String
  student_name : String
  status : MemberStatus
  evaluation : Option Evaluation
  error : Option String
deriving DecidableEq

/-- The `statistics` object of BatchProcessingResponse and BatchResults
(api.ts lines 84-91 and 117-124). -/
structure BatchStatistics where
  total_students : Nat
  successful : Nat
  failed : Nat
  average_percentage : ℚ
  total_marks_awarded : ℚ
  total_possible_marks : ℚ
deriving DecidableEq

/-- BatchProcessingResponse (api.ts lines 81-104). -/
structure BatchProcessingResponse where
  message : String
  batch_id : String
  statistics : BatchStatistics
  results : List BatchMemberResult
deriving DecidableEq

structure BatchInfo where
  exam_id : String
  paper_number : Option String
  total_students : Nat
deriving DecidableEq

structure BatchProcessingInfo where
  upload_timestamp : String
  processing_timestamp : String
deriving DecidableEq

/-- BatchResults (api.ts lines 106-137). -/
structure BatchResults where
  batch_id : String
  batch_info : BatchInfo
  processing_info : BatchProcessingInfo
  statistics : BatchStatistics
  results : List BatchMemberResult
deriving DecidableEq

structure StudentInfo where
  name : String
  exam_id : String
  paper_number : Option String
deriving DecidableEq

structure ResultsProcessingInfo where
  upload_timestamp : String
  processing_timestamp : String
  files_count : Nat
deriving DecidableEq

/-- EvaluationResults (api.ts lines 55-68); `evaluation_results` is an
`any` payload, kept opaque. -/
structure EvaluationResults where
  upload_id : String
  student_info : StudentInfo
  processing_info : ResultsProcessingInfo
  evaluation_results : String
deriving DecidableEq

structure UploadedFileMeta where
  original_name : String
  saved_name : String
  file_path : String
  file_size : Nat
  content_type : String
deriving DecidableEq

structure UploadMetadata where
  upload_id : String
  student_name : String
  exam_id : String
  paper_number : Option String
  upload_timestamp : String
  files : List UploadedFileMeta
  status : String
  processed : Bool
deriving DecidableEq

/-- UploadResponse (api.ts lines 5-25). -/
structure UploadResponse where
  message : String
  upload_id : String
  files_count : Nat
  metadata : UploadMetadata
deriving DecidableEq

structure ProcessedFile where
  file_name : String
  extracted_text : String
  text_length : Nat
deriving DecidableEq

/-- ProcessingResponse (api.ts lines 27-43); `detailed_results` is an
`any` payload, kept opaque. -/
structure ProcessingResponse where
  message : String
  upload_id : String
  student_name : String
  processed_files : List ProcessedFile
  evaluation : Evaluation
  detailed_results : String
deriving DecidableEq

/-! ## Payload handling of the ApiService methods

Every method body is `const response = await this.api.xxx(...); return
response.data;`: the client returns the parsed response body unchanged.
We embed each method as the transformation it applies to that body. -/

/-- `processBatchAnswerSheets` returns `response.data` unchanged
(api.ts lines 226-229). -/
def processBatchAnswerSheets (responseData : BatchProcessingResponse) :
    BatchProcessingResponse :=
  responseData

/-- `getBatchEvaluationResults` returns `response.data` unchanged
(api.ts lines 232-235). -/
def getBatchEvaluationResults (responseData : BatchResults) : BatchResults :=
  responseData

/-- `getEvaluationResults` returns `response.data` unchanged
(api.ts lines 185-188). -/
def getEvaluationResults (responseData : EvaluationResults) :
    EvaluationResults :=
  responseData

/-! ## Batch statistics recomputed from the outcome set -/

/-- Percentage carried by a batch member: the percentage of its evaluation
when one is present, 0 otherwise. -/
def memberPercentage (r : BatchMemberResult) : ℚ :=
  (r.evaluation.map Evaluation.percentage).getD 0

def memberTotalMarks (r : BatchMemberResult) : ℚ :=
  (r.evaluation.map Evaluation.total_marks).getD 0

def memberPossibleMarks (r : BatchMemberResult) : ℚ :=
  (r.evaluation.map Evaluation.possible_marks).getD 0

/-- Members of the outcome set with success status. -/
def successes (results : List BatchMemberResult) : List BatchMemberResult :=
  results.filter (fun r => r.status == MemberStatus.success)

/-- Members of the outcome set with error status. -/
def failures (results : List BatchMemberResult) : List BatchMemberResult :=
  results.filter (fun r => r.status == MemberStatus.error)

/-- Modelled from the spec: the backend computation of BatchStatistics is
not part of the frontend sources, so the derivation of statistics from the
per-member outcome set is taken from the spec data model — totalCount is
the number of outcomes, successCount and failureCount count the members
with success and error status, averagePercentage is the mean percentage
over successful outcomes only (0 when there are none), and the two mark
totals are sums over successful outcomes. -/
def recomputeStatistics (results : List BatchMemberResult) : BatchStatistics :=
  { total_students := results.length
    successful := (successes results).length
    failed := (failures results).length
    average_percentage :=
      if (successes results).length = 0 then 0
      else ((successes results).map memberPercentage).sum /
        ((successes results).length : ℚ)
    total_marks_awarded := ((successes results).map memberTotalMarks).sum
    total_possible_marks := ((successes results).map memberPossibleMarks).sum }

/-- A concrete batch response whose server-side statistics disagree with
the statistics recomputed from its (empty) results array. -/
def statisticsMismatchResponse : BatchProcessingResponse :=
  { message := "Batch processing completed"
    batch_id := "batch-1"
    statistics :=
      { total_students := 5
        successful := 5
        failed := 0
        average_percentage := 90
        total_marks_awarded := 450
        total_possible_marks := 500 }
    results := [] }

/-- A concrete outcome set with one successful and one failed member. -/
def sampleOutcomes : List BatchMemberResult :=
  [ { upload_id := "u1"
      student_name := "Alice"
      status := MemberStatus.success
      evaluation := some
        { total_marks := 18
          possible_marks := 20
          percentage := 90
          overall_feedback := "good work" }
      error := none },
    { upload_id := "u2"
      student_name := "Blair"
      status := MemberStatus.error
      evaluation := none
      error := some "unreadable document" } ]

/-! ## UploadPage (UploadPage.tsx)

The page component state is the record of its useState hooks; handleSubmit
is rendered as a pure function from that state and a network oracle
(the outcomes axios would deliver) to the post-invocation state together
with the ordered list of API calls issued. -/

/-- A file selected in the browser: the fields of the DOM File object the
page reads (name, size in bytes, MIME type). -/
structure FileEntry where
  name : String
  size : Nat
  mimeType : String
deriving DecidableEq

/-- The maxSize option passed to useDropzone, UploadPage.tsx line 75:
`50 * 1024 * 1024`. -/
def maxSize : Nat := 50 * 1024 * 1024

/-- Modelled from the library contract of react-dropzone, which the page
configures with maxSize (UploadPage.tsx lines 62-76): a dropped file is
delivered to onDrop as accepted only when its size does not exceed the
configured maxSize; larger files are rejected at selection. -/
def dropzoneAccepted (dropped : List FileEntry) : List FileEntry :=
  dropped.filter (fun f => f.size ≤ maxSize)

/-- The onDrop callback, UploadPage.tsx lines 53-60: the accepted files are
appended to the current uploadedFiles list. -/
def onDrop (uploadedFiles accepted : List FileEntry) : List FileEntry :=
  uploadedFiles ++ accepted

/-- The removeFile handler, UploadPage.tsx lines 78-80: keeps every file
whose index differs from the removed one. -/
def removeFile (uploadedFiles : List FileEntry) (index : Nat) :
    List FileEntry :=
  uploadedFiles.eraseIdx index

/-- A file-selection event on the page: dropping files into the dropzone
(which filters them through the maxSize policy before onDrop runs) or
removing a file by index. -/
inductive FileEvent
  | drop (dropped : List FileEntry)
  | remove (index : Nat)

/-- One file-selection event applied to the uploadedFiles state. -/
def applyFileEvent (uploadedFiles : List FileEntry) :
    FileEvent → List FileEntry
  | .drop dropped => onDrop uploadedFiles (dropzoneAccepted dropped)
  | .remove index => removeFile uploadedFiles index

/-- The uploadedFiles state after a sequence of selection events, starting
from the initial empty list (useState([])). -/
def filesAfter (events : List FileEvent) : List FileEntry :=
  events.foldl applyFileEvent []

/-- The state of the UploadPage component: one field per useState hook
(UploadPage.tsx lines 44-51). -/
structure UploadPageState where
  uploadedFiles : List FileEntry
  studentName : String
  examId : String
  paperNumber : String
  uploading : Bool
  processing : Bool
  error : Option String
  success : Option String
deriving DecidableEq

/-- The shape of a thrown axios error as the catch block reads it:
`err.response?.data?.detail` and `err.message`, either of which may be
absent. -/
structure JsError where
  responseDetail : Option String
  message : Option String
deriving DecidableEq

/-- JavaScript String.prototype.trim: the string with leading and
trailing whitespace removed. -/
def jsTrim (s : String) : String :=
  String.mk
    (((s.data.dropWhile Char.isWhitespace).reverse.dropWhile
        Char.isWhitespace).reverse)

/-- JavaScript `a || b` over an optional string: b when a is absent or
empty (falsy), a otherwise. -/
def jsOrElse (a : Option String) (b : String) : String :=
  match a with
  | some s => if s = "" then b else s
  | none => b

/-- The message computed by the catch block, UploadPage.tsx line 132:
`err.response?.data?.detail || err.message || "Upload failed"`. -/
def errorMessageOf (e : JsError) : String :=
  jsOrElse e.responseDetail (jsOrElse e.message "Upload failed")

/-- Outcomes the network delivers to handleSubmit: the result of the
uploadAnswerSheet call and, per upload id, the result of the
processAnswerSheet call. -/
structure NetworkOracle where
  uploadResult : Except JsError UploadResponse
  processResult : String → Except JsError ProcessingResponse

/-- One API call issued by the page, in issue order. -/
inductive ApiEvent
  | uploadCall (files : List FileEntry) (studentName examId : String)
      (paperNumber : Option String)
  | processCall (uploadId : String)
deriving DecidableEq

/-- Fixed validation message, UploadPage.tsx line 92. -/
def nameRequiredMsg : String := "Student name is required"

/-- Fixed validation message, UploadPage.tsx line 96. -/
def examIdRequiredMsg : String := "Exam ID is required"

/-- Fixed validation message, UploadPage.tsx line 100. -/
def noFilesMsg : String := "Please upload at least one file"

/-- Success message set after the upload step, UploadPage.tsx line 117. -/
def uploadedMsg : String :=
  "Files uploaded successfully! AI evaluation in progress..."

/-- Success message set after the processing step, UploadPage.tsx
line 124. -/
def evaluatedMsg : String := "Evaluation completed successfully!"

/-- The handleSubmit handler, UploadPage.tsx lines 90-137, as a pure
function of the component state and the network outcomes. The three
validation checks return early before the try block; otherwise uploading
is set, error and success cleared, the upload call awaited, and on success
the success banner set, processing set, uploading cleared, and the process
call awaited with the returned upload id. The catch block stores the
computed error message; the finally block clears both progress flags on
every path through the try. -/
def handleSubmit (s : UploadPageState) (net : NetworkOracle) :
    UploadPageState × List ApiEvent :=
  if jsTrim s.studentName = "" then
    ({ s with error := some nameRequiredMsg }, [])
  else if jsTrim s.examId = "" then
    ({ s with error := some examIdRequiredMsg }, [])
  else if s.uploadedFiles.length = 0 then
    ({ s with error := some noFilesMsg }, [])
  else
    let s1 : UploadPageState :=
      { s with uploading := true, error := none, success := none }
    let ev1 : ApiEvent :=
      .uploadCall s.uploadedFiles (jsTrim s.studentName) (jsTrim s.examId)
        (if jsTrim s.paperNumber = "" then none else some (jsTrim s.paperNumber))
    match net.uploadResult with
    | .error e =>
        ({ s1 with
            error := some (errorMessageOf e)
            uploading := false
            processing := false }, [ev1])
    | .ok uploadResponse =>
        let s2 : UploadPageState :=
          { s1 with
              success := some uploadedMsg
              processing := true
              uploading := false }
        let ev2 : ApiEvent := .processCall uploadResponse.upload_id
        match net.processResult uploadResponse.upload_id with
        | .error e =>
            ({ s2 with
                error := some (errorMessageOf e)
                uploading := false
                processing := false }, [ev1, ev2])
        | .ok _ =>
            ({ s2 with
                success := some evaluatedMsg
                uploading := false
                processing := false }, [ev1, ev2])

/-! ## Concrete sample values used by witnesses -/

def sampleFile : FileEntry :=
  { name := "sheet.pdf", size := 1024, mimeType := "application/pdf" }

def validPageState : UploadPageState :=
  { uploadedFiles := [sampleFile]
    studentName := "Alice"
    examId := "E1"
    paperNumber := ""
    uploading := false
    processing := false
    error := none
    success := none }

def invalidPageState : UploadPageState :=
  { validPageState with studentName := "" }

def sampleUploadResponse : UploadResponse :=
  { message := "uploaded"
    upload_id := "abc123"
    files_count := 1
    metadata :=
      { upload_id := "abc123"
        student_name := "Alice"
        exam_id := "E1"
        paper_number := none
        upload_timestamp := "2024-01-01T00:00:00"
        files := []
        status := "uploaded"
        processed := false } }

def sampleProcessingResponse : ProcessingResponse :=
  { message := "processed"
    upload_id := "abc123"
    student_name := "Alice"
    processed_files := []
    evaluation :=
      { total_marks := 18
        possible_marks := 20
        percentage := 90
        overall_feedback := "good work" }
    detailed_results := "blob" }

def sampleJsError : JsError :=
  { responseDetail := some "evaluation failed on page 2", message := none }

def okOracle : NetworkOracle :=
  { uploadResult := .ok sampleUploadResponse
    processResult := fun _ => .ok sampleProcessingResponse }

def processFailOracle : NetworkOracle :=
  { uploadResult := .ok sampleUploadResponse
    processResult := fun _ => .error sampleJsError }

def sampleEvaluationResults : EvaluationResults :=
  { upload_id := "abc123"
    student_info := { name := "Alice", exam_id := "E1", paper_number := none }
    processing_info :=
      { upload_timestamp := "2024-01-01T00:00:00"
        processing_timestamp := "2024-01-01T00:05:00"
        files_count := 1 }
    evaluation_results := "blob" }

def sampleBatchResults : BatchResults :=
  { batch_id := "batch-1"
    batch_info := { exam_id := "E1", paper_number := none, total_students := 2 }
    processing_info :=
      { upload_timestamp := "2024-01-01T00:00:00"
        processing_timestamp := "2024-01-01T00:05:00" }
    statistics :=
      { total_students := 2
        successful := 1
        failed := 1
        average_percentage := 90
        total_marks_awarded := 18
        total_possible_marks := 20 }
    results := sampleOutcomes }

end ProctorIQ

namespace ProctorIQ

/-- C1. The claim states that in every invocation the timeout configured for
processAnswerSheet strictly exceeds the timeout configured for
uploadAnswerSheet, getEvaluationResults and listUploads. This is false: at
the concrete upload id "u1" the process request resolves to the shared
instance timeout 120000 ms, the same value the upload request resolves to,
so the strict inequality fails. -/
theorem C1_counterexample :
    ¬ (effectiveTimeoutMs (processAnswerSheetRequest "u1") >
         effectiveTimeoutMs uploadAnswerSheetRequest ∧
       effectiveTimeoutMs (processAnswerSheetRequest "u1") >
         effectiveTimeoutMs (getEvaluationResultsRequest "u1") ∧
       effectiveTimeoutMs (processAnswerSheetRequest "u1") >
         effectiveTimeoutMs listUploadsRequest) := by
  decide

/-- C1 (amended). All ApiService calls resolve to the single shared axios
instance timeout of 120000 ms: the timeout applied to processAnswerSheet
(and processBatchAnswerSheets) equals, and therefore does not exceed, the
timeout applied to uploadAnswerSheet, getEvaluationResults and listUploads;
no method configures a per-request timeout of its own. -/
theorem C1_uniform_timeout (uploadId batchId : String) :
    effectiveTimeoutMs (processAnswerSheetRequest uploadId) = 120000 ∧
    effectiveTimeoutMs (processBatchAnswerSheetsRequest batchId) = 120000 ∧
    effectiveTimeoutMs uploadAnswerSheetRequest = 120000 ∧
    effectiveTimeoutMs (getEvaluationResultsRequest uploadId) = 120000 ∧
    effectiveTimeoutMs listUploadsRequest = 120000 := by
  refine ⟨rfl, rfl, rfl, rfl, rfl⟩

/-- C2. The claim states that the BatchStatistics exposed by the client
always equal the values recomputed from the per-member results array and
are never the server statistics taken verbatim. This is false: on a
response whose server statistics report 5 students while the results array
is empty, the client exposes the server statistics, which differ from the
recomputed ones. -/
theorem C2_counterexample :
    (processBatchAnswerSheets statisticsMismatchResponse).statistics ≠
      recomputeStatistics
        (processBatchAnswerSheets statisticsMismatchResponse).results := by
  decide

/-- C2 (amended). The client exposes the server-provided statistics object
verbatim: for every batch-processing response and every batch-results
response, the statistics field of the value the client returns is exactly
the statistics field of the response body, with no recomputation from the
per-member results. -/
theorem C2_statistics_verbatim (resp : BatchProcessingResponse)
    (br : BatchResults) :
    (processBatchAnswerSheets resp).statistics = resp.statistics ∧
    (processBatchAnswerSheets resp).results = resp.results ∧
    (getBatchEvaluationResults br).statistics = br.statistics := by
  exact ⟨rfl, rfl, rfl⟩

/-- Every member is counted exactly once, as a success or as a failure. -/
theorem successes_add_failures_length (results : List BatchMemberResult) :
    (successes results).length + (failures results).length = results.length := by
  induction results with
  | nil => rfl
  | cons r rs ih =>
    cases hs : r.status <;>
      simp [successes, failures, List.filter_cons, hs] <;>
      simp [successes, failures] at ih <;> omega

/-- C5. For statistics recomputed from any outcome set whose successful
members carry percentages within 0 to 100: successful plus failed members
count up to the total, the average percentage lies in the interval 0 to
100, it is exactly 0 when there is no successful member, and when there is
one it equals the mean of the percentages of the successful members
only. -/
theorem C5_statistics_invariants (results : List BatchMemberResult)
    (hperc : ∀ r ∈ results, r.status = MemberStatus.success →
      0 ≤ memberPercentage r ∧ memberPercentage r ≤ 100) :
    (recomputeStatistics results).successful + (recomputeStatistics results).failed
        = (recomputeStatistics results).total_students ∧
    0 ≤ (recomputeStatistics results).average_percentage ∧
    (recomputeStatistics results).average_percentage ≤ 100 ∧
    ((recomputeStatistics results).successful = 0 →
      (recomputeStatistics results).average_percentage = 0) ∧
    (0 < (recomputeStatistics results).successful →
      (recomputeStatistics results).average_percentage =
        ((successes results).map memberPercentage).sum /
          ((successes results).length : ℚ)) := by
  have hmem : ∀ x ∈ (successes results).map memberPercentage,
      0 ≤ x ∧ x ≤ 100 := by
    intro x hx
    obtain ⟨r, hr, rfl⟩ := List.mem_map.1 hx
    have hf := List.mem_filter.1 hr
    exact hperc r hf.1 (by simpa using hf.2)
  refine ⟨?_, ?_, ?_, ?_, ?_⟩
  · simpa [recomputeStatistics] using successes_add_failures_length results
  · by_cases h0 : (successes results).length = 0
    · simp [recomputeStatistics, h0]
    · have hsum : 0 ≤ ((successes results).map memberPercentage).sum :=
        List.sum_nonneg (fun x hx => (hmem x hx).1)
      have hlen : (0 : ℚ) ≤ ((successes results).length : ℚ) := by positivity
      simp only [recomputeStatistics, h0, if_false]
      exact div_nonneg hsum hlen
  · by_cases h0 : (successes results).length = 0
    · simp [recomputeStatistics, h0]
    · have hpos : (0 : ℚ) < ((successes results).length : ℚ) := by
        exact_mod_cast Nat.pos_of_ne_zero h0
      have hsum : ((successes results).map memberPercentage).sum ≤
          (((successes results).map memberPercentage).length : ℚ) * 100 := by
        have := List.sum_le_card_nsmul
          ((successes results).map memberPercentage) (100 : ℚ)
          (fun x hx => (hmem x hx).2)
        simpa [nsmul_eq_mul] using this
      simp only [recomputeStatistics, h0, if_false]
      rw [div_le_iff₀ hpos]
      calc ((successes results).map memberPercentage).sum
          ≤ (((successes results).map memberPercentage).length : ℚ) * 100 := hsum
        _ = 100 * ((successes results).length : ℚ) := by
            rw [List.length_map, mul_comm]
  · intro h0
    simp only [recomputeStatistics] at h0 ⊢
    simp [h0]
  · intro hpos
    simp only [recomputeStatistics] at hpos ⊢
    rw [if_neg (Nat.pos_iff_ne_zero.1 hpos)]

/-- C5 witness: the invariants hold for a concrete outcome set with one
success at 90 percent and one error. -/
theorem C5_statistics_invariants_witness :
    (∀ r ∈ sampleOutcomes, r.status = MemberStatus.success →
      0 ≤ memberPercentage r ∧ memberPercentage r ≤ 100) ∧
    ((recomputeStatistics sampleOutcomes).successful +
          (recomputeStatistics sampleOutcomes).failed
        = (recomputeStatistics sampleOutcomes).total_students ∧
      0 ≤ (recomputeStatistics sampleOutcomes).average_percentage ∧
      (recomputeStatistics sampleOutcomes).average_percentage ≤ 100 ∧
      ((recomputeStatistics sampleOutcomes).successful = 0 →
        (recomputeStatistics sampleOutcomes).average_percentage = 0) ∧
      (0 < (recomputeStatistics sampleOutcomes).successful →
        (recomputeStatistics sampleOutcomes).average_percentage =
          ((successes sampleOutcomes).map memberPercentage).sum /
            ((successes sampleOutcomes).length : ℚ))) :=
  ⟨by decide, C5_statistics_invariants sampleOutcomes (by decide)⟩

/-- When the jsOrElse fallback is non-empty, so is the combined value. -/
theorem jsOrElse_ne_empty (a : Option String) (b : String) (hb : b ≠ "") :
    jsOrElse a b ≠ "" := by
  cases a with
  | none => simpa [jsOrElse] using hb
  | some s =>
    by_cases hs : s = ""
    · simpa [jsOrElse, hs] using hb
    · simp only [jsOrElse, if_neg hs]
      exact hs

/-- The catch-block message is never the empty string: the chain of
fallbacks ends in the non-empty literal. -/
theorem errorMessageOf_ne_empty (e : JsError) : errorMessageOf e ≠ "" :=
  jsOrElse_ne_empty _ _ (jsOrElse_ne_empty _ _ (by decide))

/-- C3. When the trimmed student name is empty, the trimmed exam id is
empty, or the file list is empty, handleSubmit issues no API call, leaves
a non-empty validation error in the error state, and leaves the uploading
flag untouched, so the workflow never reaches the uploading step. -/
theorem C3_validation_blocks_network (s : UploadPageState)
    (net : NetworkOracle)
    (h : jsTrim s.studentName = "" ∨ jsTrim s.examId = "" ∨
      s.uploadedFiles.length = 0) :
    (handleSubmit s net).2 = [] ∧
    (∃ m, (handleSubmit s net).1.error = some m ∧ m ≠ "") ∧
    (handleSubmit s net).1.uploading = s.uploading := by
  unfold handleSubmit
  rcases h with h1 | h2 | h3
  · rw [if_pos h1]
    exact ⟨rfl, ⟨nameRequiredMsg, rfl, by decide⟩, rfl⟩
  · by_cases h1 : jsTrim s.studentName = ""
    · rw [if_pos h1]
      exact ⟨rfl, ⟨nameRequiredMsg, rfl, by decide⟩, rfl⟩
    · rw [if_neg h1, if_pos h2]
      exact ⟨rfl, ⟨examIdRequiredMsg, rfl, by decide⟩, rfl⟩
  · by_cases h1 : jsTrim s.studentName = ""
    · rw [if_pos h1]
      exact ⟨rfl, ⟨nameRequiredMsg, rfl, by decide⟩, rfl⟩
    · by_cases h2 : jsTrim s.examId = ""
      · rw [if_neg h1, if_pos h2]
        exact ⟨rfl, ⟨examIdRequiredMsg, rfl, by decide⟩, rfl⟩
      · rw [if_neg h1, if_neg h2, if_pos h3]
        exact ⟨rfl, ⟨noFilesMsg, rfl, by decide⟩, rfl⟩

/-- C3 witness: on a state whose student name is empty, handleSubmit makes
no API call and surfaces a validation error. -/
theorem C3_validation_blocks_network_witness :
    (jsTrim invalidPageState.studentName = "" ∨
      jsTrim invalidPageState.examId = "" ∨
      invalidPageState.uploadedFiles.length = 0) ∧
    ((handleSubmit invalidPageState okOracle).2 = [] ∧
      (∃ m, (handleSubmit invalidPageState okOracle).1.error = some m ∧
        m ≠ "") ∧
      (handleSubmit invalidPageState okOracle).1.uploading =
        invalidPageState.uploading) :=
  ⟨Or.inl (by decide),
   C3_validation_blocks_network invalidPageState okOracle
     (Or.inl (by decide))⟩

/-- C4. When validation passes and the upload call returns an upload
response, handleSubmit issues exactly two API calls in order: the upload
call, then the process call carrying exactly the upload id returned by the
upload response — automatically, with no further input, and never the
process call first. -/
theorem C4_process_follows_upload (s : UploadPageState) (net : NetworkOracle)
    (resp : UploadResponse)
    (h1 : ¬ jsTrim s.studentName = "") (h2 : ¬ jsTrim s.examId = "")
    (h3 : ¬ s.uploadedFiles.length = 0)
    (hok : net.uploadResult = .ok resp) :
    (handleSubmit s net).2 =
      [ApiEvent.uploadCall s.uploadedFiles (jsTrim s.studentName) (jsTrim s.examId)
          (if jsTrim s.paperNumber = "" then none else some (jsTrim s.paperNumber)),
       ApiEvent.processCall resp.upload_id] := by
  cases hpr : net.processResult resp.upload_id <;>
    simp [handleSubmit, h1, h2, h3, hok, hpr]

/-- C4 witness: on a valid state with a succeeding upload, the two calls
appear in order and the process call carries the returned id. -/
theorem C4_process_follows_upload_witness :
    (¬ jsTrim validPageState.studentName = "" ∧
      ¬ jsTrim validPageState.examId = "" ∧
      ¬ validPageState.uploadedFiles.length = 0 ∧
      okOracle.uploadResult = .ok sampleUploadResponse) ∧
    (handleSubmit validPageState okOracle).2 =
      [ApiEvent.uploadCall validPageState.uploadedFiles
          (jsTrim validPageState.studentName) (jsTrim validPageState.examId)
          (if jsTrim validPageState.paperNumber = "" then none
            else some (jsTrim validPageState.paperNumber)),
       ApiEvent.processCall sampleUploadResponse.upload_id] :=
  ⟨⟨by decide, by decide, by decide, rfl⟩,
   C4_process_follows_upload validPageState okOracle sampleUploadResponse
     (by decide) (by decide) (by decide) rfl⟩

/-- C6. When validation passes and either the upload call or the
subsequent process call fails, handleSubmit terminates with the error
state holding the message computed from the thrown error — the remote
detail when present and non-empty, otherwise the error message, otherwise
the fixed fallback — which is never empty, and with both progress flags
cleared. -/
theorem C6_errors_surfaced (s : UploadPageState) (net : NetworkOracle)
    (e : JsError)
    (h1 : ¬ jsTrim s.studentName = "") (h2 : ¬ jsTrim s.examId = "")
    (h3 : ¬ s.uploadedFiles.length = 0)
    (herr : net.uploadResult = .error e ∨
      ∃ resp, net.uploadResult = .ok resp ∧
        net.processResult resp.upload_id = .error e) :
    (handleSubmit s net).1.error = some (errorMessageOf e) ∧
    errorMessageOf e ≠ "" ∧
    (handleSubmit s net).1.uploading = false ∧
    (handleSubmit s net).1.processing = false := by
  rcases herr with hup | ⟨resp, hok, hpr⟩
  · refine ⟨?_, errorMessageOf_ne_empty e, ?_, ?_⟩ <;>
      simp [handleSubmit, h1, h2, h3, hup]
  · refine ⟨?_, errorMessageOf_ne_empty e, ?_, ?_⟩ <;>
      simp [handleSubmit, h1, h2, h3, hok, hpr]

/-- C6 witness: on a valid state where processing fails with a remote
detail, the error state holds that detail and both flags are cleared. -/
theorem C6_errors_surfaced_witness :
    (¬ jsTrim validPageState.studentName = "" ∧
      ¬ jsTrim validPageState.examId = "" ∧
      ¬ validPageState.uploadedFiles.length = 0 ∧
      (processFailOracle.uploadResult = .error sampleJsError ∨
        ∃ resp, processFailOracle.uploadResult = .ok resp ∧
          processFailOracle.processResult resp.upload_id =
            .error sampleJsError)) ∧
    ((handleSubmit validPageState processFailOracle).1.error =
        some (errorMessageOf sampleJsError) ∧
      errorMessageOf sampleJsError ≠ "" ∧
      (handleSubmit validPageState processFailOracle).1.uploading = false ∧
      (handleSubmit validPageState processFailOracle).1.processing = false) :=
  ⟨⟨by decide, by decide, by decide,
    Or.inr ⟨sampleUploadResponse, rfl, rfl⟩⟩,
   C6_errors_surfaced validPageState processFailOracle sampleJsError
     (by decide) (by decide) (by decide)
     (Or.inr ⟨sampleUploadResponse, rfl, rfl⟩)⟩

/-- C7. The result-fetching calls are reads: both request descriptors use
GET and are not state-changing, and the client returns the response body
unchanged, so two fetches that see an unchanged remote state (equal
response bodies) return identical data. -/
theorem C7_reads_idempotent (uploadId batchId : String)
    (r r2 : EvaluationResults) (b b2 : BatchResults)
    (hr : r = r2) (hb : b = b2) :
    (getEvaluationResultsRequest uploadId).method = HttpMethod.get ∧
    (getBatchEvaluationResultsRequest batchId).method = HttpMethod.get ∧
    isStateChanging (getEvaluationResultsRequest uploadId) = false ∧
    isStateChanging (getBatchEvaluationResultsRequest batchId) = false ∧
    getEvaluationResults r = getEvaluationResults r2 ∧
    getBatchEvaluationResults b = getBatchEvaluationResults b2 := by
  subst hr
  subst hb
  exact ⟨rfl, rfl, rfl, rfl, rfl, rfl⟩

/-- C7 witness: at concrete ids and response bodies, both fetch requests
are GETs and repeated fetches of the same bodies agree. -/
theorem C7_reads_idempotent_witness :
    (sampleEvaluationResults = sampleEvaluationResults ∧
      sampleBatchResults = sampleBatchResults) ∧
    ((getEvaluationResultsRequest "abc123").method = HttpMethod.get ∧
      (getBatchEvaluationResultsRequest "batch-1").method = HttpMethod.get ∧
      isStateChanging (getEvaluationResultsRequest "abc123") = false ∧
      isStateChanging (getBatchEvaluationResultsRequest "batch-1") = false ∧
      getEvaluationResults sampleEvaluationResults =
        getEvaluationResults sampleEvaluationResults ∧
      getBatchEvaluationResults sampleBatchResults =
        getBatchEvaluationResults sampleBatchResults) :=
  ⟨⟨rfl, rfl⟩,
   C7_reads_idempotent "abc123" "batch-1" sampleEvaluationResults
     sampleEvaluationResults sampleBatchResults sampleBatchResults rfl rfl⟩

/-- The size bound is preserved by every file-selection event starting
from any list that satisfies it. -/
theorem filesAfter_size_invariant (events : List FileEvent)
    (init : List FileEntry) (hinit : ∀ f ∈ init, f.size ≤ maxSize) :
    ∀ f ∈ events.foldl applyFileEvent init, f.size ≤ maxSize := by
  induction events generalizing init with
  | nil => exact hinit
  | cons ev evs ih =>
    intro f hf
    refine ih (applyFileEvent init ev) ?_ f (by simpa using hf)
    intro g hg
    cases ev with
    | drop dropped =>
      rcases List.mem_append.1 hg with hg | hg
      · exact hinit g hg
      · exact of_decide_eq_true (List.mem_filter.1 hg).2
    | remove index =>
      exact hinit g (List.mem_of_mem_eraseIdx hg)

/-- C8. Every file present in the uploadedFiles state after any sequence
of drop and remove events, starting from the initial empty list, has size
at most the configured maximum of 50 times 1024 times 1024 bytes: the
dropzone rejects larger files at selection, so no oversized file is ever
part of an upload. -/
theorem C8_accepted_files_within_max (events : List FileEvent)
    (f : FileEntry) (hf : f ∈ filesAfter events) :
    f.size ≤ maxSize ∧ maxSize = 50 * 1024 * 1024 :=
  ⟨filesAfter_size_invariant events [] (by simp) f hf, rfl⟩

/-- C8 witness: a concrete dropped file is in the state after its drop and
respects the bound. -/
theorem C8_accepted_files_within_max_witness :
    sampleFile ∈ filesAfter [FileEvent.drop [sampleFile]] ∧
    (sampleFile.size ≤ maxSize ∧ maxSize = 50 * 1024 * 1024) :=
  ⟨by decide,
   C8_accepted_files_within_max [FileEvent.drop [sampleFile]] sampleFile
     (by decide)⟩

/-- C9. Whenever handleSubmit is invoked from a state whose progress flags
are clear — the only states in which the submit button is enabled — the
state it leaves behind has both the uploading and processing flags false,
on every path: validation failure, upload failure, processing failure, and
full success. -/
theorem C9_flags_cleared (s : UploadPageState) (net : NetworkOracle)
    (hu : s.uploading = false) (hp : s.processing = false) :
    (handleSubmit s net).1.uploading = false ∧
    (handleSubmit s net).1.processing = false := by
  by_cases h1 : jsTrim s.studentName = ""
  · simp [handleSubmit, h1, hu, hp]
  · by_cases h2 : jsTrim s.examId = ""
    · simp [handleSubmit, h1, h2, hu, hp]
    · by_cases h3 : s.uploadedFiles.length = 0
      · simp [handleSubmit, h1, h2, h3, hu, hp]
      · cases hur : net.uploadResult with
        | error e => simp [handleSubmit, h1, h2, h3, hur]
        | ok resp =>
          cases hpr : net.processResult resp.upload_id <;>
            simp [handleSubmit, h1, h2, h3, hur, hpr]

/-- C9 witness: a full successful run from the valid sample state ends
with both flags clear. -/
theorem C9_flags_cleared_witness :
    (validPageState.uploading = false ∧ validPageState.processing = false) ∧
    ((handleSubmit validPageState okOracle).1.uploading = false ∧
      (handleSubmit validPageState okOracle).1.processing = false) :=
  ⟨⟨rfl, rfl⟩, C9_flags_cleared validPageState okOracle rfl rfl⟩

/-- C10. When the upload call succeeds and the process call fails, the
catch block sets the error message but never touches the success state:
the final state holds both the upload-step success banner and the
processing error message. -/
theorem C10_success_banner_kept (s : UploadPageState) (net : NetworkOracle)
    (resp : UploadResponse) (e : JsError)
    (h1 : ¬ jsTrim s.studentName = "") (h2 : ¬ jsTrim s.examId = "")
    (h3 : ¬ s.uploadedFiles.length = 0)
    (hok : net.uploadResult = .ok resp)
    (hpr : net.processResult resp.upload_id = .error e) :
    (handleSubmit s net).1.success = some uploadedMsg ∧
    (handleSubmit s net).1.error = some (errorMessageOf e) := by
  constructor <;> simp [handleSubmit, h1, h2, h3, hok, hpr]

/-- C10 witness: on the valid sample state with a failing process call,
the final state holds both the upload success banner and the error. -/
theorem C10_success_banner_kept_witness :
    (¬ jsTrim validPageState.studentName = "" ∧
      ¬ jsTrim validPageState.examId = "" ∧
      ¬ validPageState.uploadedFiles.length = 0 ∧
      processFailOracle.uploadResult = .ok sampleUploadResponse ∧
      processFailOracle.processResult sampleUploadResponse.upload_id =
        .error sampleJsError) ∧
    ((handleSubmit validPageState processFailOracle).1.success =
        some uploadedMsg ∧
      (handleSubmit validPageState processFailOracle).1.error =
        some (errorMessageOf sampleJsError)) :=
  ⟨⟨by decide, by decide, by decide, rfl, rfl⟩,
   C10_success_banner_kept validPageState processFailOracle
     sampleUploadResponse sampleJsError (by decide) (by decide) (by decide)
     rfl rfl⟩

end ProctorIQ
